import Mathlib

/-!
# Tuvok IOManager — verification of the specified behaviour

A shallow embedding of the volume-conversion facade in `IOManager.cpp`.
Each definition translates one function (or one self-contained fragment)
of the source; the line numbers in the doc comments refer to that file.
Machine integers (`UINT64`, `UINT32`, sizes, counts) are modelled as `Nat`
— none of the modelled computations can overflow at realistic sizes, and
where a C++ conversion wraps (negative `int` to an unsigned type) the wrap
is written out explicitly.  `float`/`double` voxel values are modelled as
rationals, with the finite extrema `FLT_MAX`/`DBL_MAX` as explicit
rational constants.
-/

namespace Tuvok

/-! ## Brick-size settings (IOManager.cpp lines 129-135, 2153-2165) -/

/-- The two brick-layout settings the facade holds
(`m_iMaxBrickSize`, `m_iBrickOverlap`). -/
structure IOMSettings where
  maxBrickSize : Nat
  brickOverlap : Nat
deriving DecidableEq

/-- `IOManager::SetMaxBrickSize` (lines 2153-2158): update `m_iMaxBrickSize`
and report `true` only when the new size exceeds the current overlap;
otherwise leave the state alone and report `false`. -/
def SetMaxBrickSize (s : IOMSettings) (iMaxBrickSize : Nat) : Bool × IOMSettings :=
  if iMaxBrickSize > s.brickOverlap then
    (true, { s with maxBrickSize := iMaxBrickSize })
  else (false, s)

/-- `IOManager::SetBrickOverlap` (lines 2160-2165): update `m_iBrickOverlap`
and report `true` only when the current maximum brick size exceeds the new
overlap; otherwise leave the state alone and report `false`. -/
def SetBrickOverlap (s : IOMSettings) (iBrickOverlap : Nat) : Bool × IOMSettings :=
  if s.maxBrickSize > iBrickOverlap then
    (true, { s with brickOverlap := iBrickOverlap })
  else (false, s)

/-- The facade's size invariant: the maximum brick size strictly exceeds
the brick overlap. -/
def brickSettingsInv (s : IOMSettings) : Prop :=
  s.brickOverlap < s.maxBrickSize

instance (s : IOMSettings) : Decidable (brickSettingsInv s) :=
  inferInstanceAs (Decidable (_ < _))

/-! ## 3-to-4 component padding (IOManager.cpp lines 360-384)

For a DICOM stack with `m_iComponentCount == 3` the element's payload is
rewritten in groups: bytes `3k..3k+2` are copied to `4k..4k+2` and byte
`4k+3` is set to `255`.  The C++ loop runs for `k < iDataSize/3`, so a
trailing partial triple is dropped. -/

/-- The RGBA rewrite of one element's payload (lines 373-379). -/
def expandRGBA : List Nat → List Nat
  | r :: g :: b :: rest => r :: g :: b :: 255 :: expandRGBA rest
  | _ => []

/-- A payload that is a whole number of `(r,g,b)` triples, flattened to
bytes in order. -/
def flatTriples : List (Nat × Nat × Nat) → List Nat
  | [] => []
  | (r, g, b) :: rest => r :: g :: b :: flatTriples rest

/-- The spec's description of the output: every input triple becomes the
4-byte group `(r, g, b, 255)`. -/
def paddedQuads : List (Nat × Nat × Nat) → List Nat
  | [] => []
  | (r, g, b) :: rest => r :: g :: b :: 255 :: paddedQuads rest

/-! ## Image-stack conversion arguments (IOManager.cpp lines 460-485)

For a stack whose file-type tag is `"IMAGE"`, `ConvertDataset` forwards
these arguments to `RAWConverter::ConvertRAWDataset`. -/

/-- The fields of a `FileStackInfo` that the image branch reads. -/
structure ImageStackModel where
  allocated : Nat
  componentCount : Nat
  firstElemComponents : Nat
  bigEndian : Bool
  sizeX : Nat
  sizeY : Nat
  sizeZ : Nat
  numElements : Nat
deriving DecidableEq

/-- The scalar-type arguments `ConvertDataset` builds for the RAW-to-UVF
builder in the image branch. -/
structure RawConvTypeArgs where
  headerSkip : Nat
  bitWidth : Nat
  components : Nat
  timesteps : Nat
  swapEndian : Bool
  signed : Bool
  isFloat : Bool
deriving DecidableEq

/-- Lines 469-485: header skip `0`, bit width `m_iAllocated`, component
count from the first element, one timestep, byte swap when the stack's
endianness differs from the host's, the signed flag computed as
`m_iComponentCount >= 32`, and the float flag fixed `false`. -/
def imageStackRawArgs (hostBigEndian : Bool) (s : ImageStackModel) : RawConvTypeArgs :=
  { headerSkip := 0
    bitWidth := s.allocated
    components := s.firstElemComponents
    timesteps := 1
    swapEndian := s.bigEndian != hostBigEndian
    signed := decide (32 ≤ s.componentCount)
    isFloat := false }

/-! ## Converter lookup by extension (IOManager.cpp lines 1345-1356) -/

/-- `SysTools::ToLowerCase` on one character.
Modelled from the spec: `SysTools` is outside the given sources; the spec
says extension matching is by case-insensitive (lowercased) comparison, so
the helper maps the ASCII uppercase letters to lowercase and leaves every
other character alone. -/
def toLowerChar (c : Char) : Char :=
  if 'A' ≤ c ∧ c ≤ 'Z' then Char.ofNat (c.toNat + 32) else c

/-- `SysTools::ToLowerCase` on a string: lowercase every character. -/
def toLowerCase (s : String) : String :=
  String.mk (s.data.map toLowerChar)

/-- What `GetConverterForExt` reads of an `AbstrConverter`: its advertised
extension list (`SupportedExt`) and its export capability
(`CanExportData`). -/
structure ConverterInfo where
  exts : List String
  canExport : Bool
deriving DecidableEq

/-- `IOManager::GetConverterForExt` (lines 1345-1356): walk the converter
registry in order; for each converter that passes the export filter,
compare the argument against the *lowercased* advertised extensions, and
return the first converter with a hit. -/
def GetConverterForExt (converters : List ConverterInfo) (ext : String)
    (bMustSupportExport : Bool) : Option ConverterInfo :=
  converters.findSome? fun c =>
    if !bMustSupportExport || c.canExport then
      if c.exts.any fun e => ext = toLowerCase e then some c else none
    else none

/-! ## Per-brick min/max (IOManager.cpp lines 1576-1701)

`minmax_input<T>` starts from the sentinel pair
`(numeric_limits<T>::max(), -numeric_limits<T>::max())` and folds
`min`/`max` over the brick's voxels.  The negated maximum is converted
back to `T`: for the signed and floating types it stays in range, for an
unsigned `T` of width `w` it wraps to `(-(2^w - 1)) mod 2^w = 1`.
Voxel values of every supported type are embedded into `ℚ`. -/

/-- Largest finite `float`: `(2 - 2^-23) * 2^127`. -/
def FLT_MAX : ℚ := (2 ^ 24 - 1) * 2 ^ 104

/-- Largest finite `double`: `(2 - 2^-52) * 2^1023`. -/
def DBL_MAX : ℚ := (2 ^ 53 - 1) * 2 ^ 971

/-- The voxel types the stats builder dispatches over (lines 1660-1677). -/
inductive VoxelType where
  | i8 | u8 | i16 | u16 | i32 | u32 | f32 | f64
deriving DecidableEq

/-- The wrap of a negative `int` value converted to an unsigned type of
width `w` (C++ conversion modulo `2^w`). -/
def uwrap (w : Nat) (z : Int) : Int := z % (2 ^ w : Int)

/-- The initial `(first, second)` pair of `minmax_input<T>` (lines
1582-1583), after the conversion of `-numeric_limits<T>::max()` back into
`T`. -/
def minmaxInit : VoxelType → ℚ × ℚ
  | .i8 => (2 ^ 7 - 1, -(2 ^ 7 - 1))
  | .u8 => (2 ^ 8 - 1, (uwrap 8 (-(2 ^ 8 - 1)) : Int))
  | .i16 => (2 ^ 15 - 1, -(2 ^ 15 - 1))
  | .u16 => (2 ^ 16 - 1, (uwrap 16 (-(2 ^ 16 - 1)) : Int))
  | .i32 => (2 ^ 31 - 1, -(2 ^ 31 - 1))
  | .u32 => (2 ^ 32 - 1, (uwrap 32 (-(2 ^ 32 - 1)) : Int))
  | .f32 => (FLT_MAX, -FLT_MAX)
  | .f64 => (DBL_MAX, -DBL_MAX)

/-- The fold of `minmax_input` (lines 1584-1588): at every voxel,
`retval.first = min(v, retval.first)` and `retval.second =
max(v, retval.second)`. -/
def minmax_input (init : ℚ × ℚ) (data : List ℚ) : ℚ × ℚ :=
  data.foldl (fun retval v => (min v retval.1, max v retval.2)) init

/-- `get_brick_minmax<T>` (lines 1614-1634): the `DOUBLEVECTOR4`
`(x = min, y = max, z = -DBL_MAX, w = DBL_MAX)` for one brick's voxel
list — the gradient slots are fixed at the double extrema. -/
def get_brick_minmax (t : VoxelType) (data : List ℚ) : ℚ × ℚ × ℚ × ℚ :=
  let mm := minmax_input (minmaxInit t) data
  (mm.1, mm.2, -DBL_MAX, DBL_MAX)

/-! ## Global maximum fed to the 2D histogram (IOManager.cpp lines 1718-1748)

`CreateUVFFromRDB` initialises `double max_val = DBL_MAX;` and folds
`max_val = std::max(max_val, i->y)` over the per-brick `(min, max, ...)`
records, then passes `max_val` to `Histogram2DDataBlock::Compute`. -/

/-- The value `CreateUVFFromRDB` hands to the 2D histogram, computed from
the per-brick `(min, max)` records returned by `MaxMin` (lines 1720-1748). -/
def hist2dMaxArg (minmax : List (ℚ × ℚ)) : ℚ :=
  minmax.foldl (fun max_val i => max max_val i.2) DBL_MAX

/-- The spec's "global maximum value": the maximum over all per-brick
maxima (written for a block with at least one brick). -/
def globalMaxOfMaxima (first : ℚ × ℚ) (rest : List (ℚ × ℚ)) : ℚ :=
  rest.foldl (fun acc i => max acc i.2) first.2

/-! ## Expression-evaluator type identification (IOManager.cpp lines 1757-1773,
1950-1962)

`IdentifyType` walks the input UVFs accumulating
`bit_width = max(bit_width, GetBitWidth())`,
`is_float = max(is_float, GetIsFloat())` and
`is_signed = max(is_signed, GetIsSigned())` from `(0, false, false)`
(`std::max` on `bool` is disjunction).  The output `RasterDataBlock` is
set up with `SetTypeToUShort` — 16-bit, unsigned, non-float — before the
loop, independently of what `IdentifyType` later computes. -/

/-- The scalar-type facts `IdentifyType` reads from one input UVF. -/
structure UVFTypeInfo where
  bitWidth : Nat
  isFloat : Bool
  isSigned : Bool

/-- `IdentifyType` (lines 1757-1773). -/
def IdentifyType (uvf : List UVFTypeInfo) : Nat × Bool × Bool :=
  uvf.foldl
    (fun acc v => (max acc.1 v.bitWidth, max acc.2.1 v.isFloat, max acc.2.2 v.isSigned))
    (0, false, false)

/-- The element type of the raster block `EvaluateExpression` writes
(lines 1950-1953): `SetTypeToUShort` fixes `(16, float := false,
signed := false)` whatever the inputs are.
Modelled from the spec: `RasterDataBlock`'s assignment operator (the
`*rdb = *rdb1` at line 1961 copying "the other basic info" from the first
input) is outside the given sources; per the spec the emitted raster type
stays the hard-coded 16-bit unsigned. -/
def evalOutputRasterType (uvf : List UVFTypeInfo) : Nat × Bool × Bool :=
  match uvf with
  | _ => (16, false, false)

/-! ## Mergeability of expression inputs (IOManager.cpp lines 1519-1543,
1932-1940) -/

/-- What `MergeableDatasets` reads of a `Dataset`: component count, brick
overlap, timestep count, LOD count, and the domain size / brick count
query methods (each `UINT64VECTOR3`-valued, indexed by LOD and
timestep). -/
structure DSMeta where
  componentCount : Nat
  brickOverlap : Nat × Nat × Nat
  timesteps : Nat
  lods : Nat
  domainSize : Nat → Nat → Nat × Nat × Nat
  brickCount : Nat → Nat → Nat × Nat × Nat

/-- The arguments of the no-argument call `GetDomainSize()` inside the
`MergeableDatasets` loop.
Modelled from the spec: `Dataset::GetDomainSize`'s default arguments are
declared outside the given sources; the spec treats LOD 0 as the
highest-quality level ("always extract the highest quality here"), so the
bare call is modelled as querying LOD 0 of timestep 0. -/
def defaultDomainQuery : Nat × Nat := (0, 0)

/-- `MergeableDatasets::operator()` (lines 1519-1543): equal component
count and brick overlap, equal timestep count, equal LOD count, and for
every `(ts, level)` pair in range, equal `GetDomainSize()` (at its
default arguments) and equal `GetBrickCount(level, ts)`. -/
def mergeableDatasets (a b : DSMeta) : Bool :=
  if a.componentCount ≠ b.componentCount ∨ a.brickOverlap ≠ b.brickOverlap then
    false
  else if a.timesteps ≠ b.timesteps then false
  else if a.lods ≠ b.lods then false
  else
    (List.range a.timesteps).all fun ts =>
      (List.range a.lods).all fun level =>
        if a.domainSize defaultDomainQuery.1 defaultDomainQuery.2 ≠
             b.domainSize defaultDomainQuery.1 defaultDomainQuery.2 ∨
           a.brickCount level ts ≠ b.brickCount level ts then
          false
        else true

/-- The mergeability gate of `EvaluateExpression` (lines 1932-1940):
walking the open datasets, the `UnmergeableDatasets` error is thrown as
soon as one of them is not mergeable with the first. -/
def evalExprUnmergeable (first : DSMeta) (rest : List DSMeta) : Bool :=
  (first :: rest).any fun u => !mergeableDatasets first u

/-! ## MergeDatasets (IOManager.cpp lines 502-800)

The conversion loop walks the sources, building one raw intermediate per
source.  A `.uvf` source is opened (a failure to open is the bare
`return false` at line 541), its scalar type and domain are checked
against the first source's (lines 548-585, before the export), and its
top LOD is exported to `<temp>/<name><rand>.raw` with the delete flag set
(lines 587-594 — note that a failed export `break`s *without* resetting
`bRAWCreated`).  Any other source goes through the converter chain, which
either produces an intermediate (with a converter-chosen delete flag) or
fails; the type check runs after the intermediate is recorded (lines
595-667).  After the loop: the flagged intermediates are deleted and the
call bails when no raw was created (lines 670-678); the unsigned-float
combination returns at line 727 *before* the cleanup at lines 754-758;
otherwise the type-dispatched `DataMerger` runs (per the spec it removes
its own output on failure), the flagged intermediates are deleted, and on
success the merged file is converted to the target and removed
(lines 764-799). -/

/-- The scalar-type and domain facts the compatibility check compares
(`DATA_TYPE_CHECK`, lines 557-585, and lines 652-662). -/
structure VolMeta where
  bitWidth : Nat
  compCount : Nat
  convertEndian : Bool
  signed : Bool
  isFloat : Bool
  domX : Nat
  domY : Nat
  domZ : Nat
deriving DecidableEq

/-- One source of a merge: a `.uvf` file (does it open, its metadata, does
its raw export succeed) or any other format (the converter chain either
yields metadata plus a delete flag, or fails). -/
inductive MergeSource where
  | uvfSrc (opensOk : Bool) (meta : VolMeta) (exportOk : Bool)
  | rawSrc (conv : Option (VolMeta × Bool))
deriving DecidableEq

/-- The temp files whose paths `MergeDatasets` allocates: the per-source
raw intermediate of source `i`, and `<temp_dir>/merged.raw`. -/
inductive TempFile where
  | interm (i : Nat)
  | merged
deriving DecidableEq

/-- What the conversion loop (lines 527-668) ends with: whether the bare
`return false` of line 541 fired, the final `bRAWCreated`, the recorded
intermediates (source index, delete flag), the global metadata of the
first source, and the files existing on disk. -/
structure MergeLoopResult where
  earlyReturn : Bool
  bRAWCreated : Bool
  intermediates : List (Nat × Bool)
  globals : Option VolMeta
  files : List TempFile
deriving DecidableEq

/-- The conversion loop of `MergeDatasets` (lines 527-668), one source at
a time.  `i` is `iInputData`, `globals` the metadata captured from the
first source, `braw` the running `bRAWCreated`. -/
def mergeLoop : Nat → List MergeSource → Option VolMeta → Bool →
    List (Nat × Bool) → List TempFile → MergeLoopResult
  | _, [], globals, braw, ints, fs =>
    { earlyReturn := false, bRAWCreated := braw, intermediates := ints
      globals := globals, files := fs }
  | i, MergeSource.uvfSrc opensOk meta exportOk :: rest, globals, braw, ints, fs =>
    if opensOk = false then
      -- line 541: `return false` with no cleanup of earlier intermediates
      { earlyReturn := true, bRAWCreated := braw, intermediates := ints
        globals := globals, files := fs }
    else
      match globals with
      | none =>
        -- iInputData == 0: capture the global type parameters (lines 548-555)
        if exportOk then
          mergeLoop (i + 1) rest (some meta) true (ints ++ [(i, true)])
            (fs ++ [TempFile.interm i])
        else
          -- line 590-592: failed export breaks; bRAWCreated keeps its value
          { earlyReturn := false, bRAWCreated := braw, intermediates := ints
            globals := some meta, files := fs }
      | some gm =>
        if meta ≠ gm then
          -- DATA_TYPE_CHECK (lines 557-582): bRAWCreated = false, break
          { earlyReturn := false, bRAWCreated := false, intermediates := ints
            globals := some gm, files := fs }
        else if exportOk then
          mergeLoop (i + 1) rest (some gm) true (ints ++ [(i, true)])
            (fs ++ [TempFile.interm i])
        else
          -- line 590-592: failed export breaks WITHOUT resetting bRAWCreated
          { earlyReturn := false, bRAWCreated := braw, intermediates := ints
            globals := some gm, files := fs }
  | i, MergeSource.rawSrc conv :: rest, globals, _braw, ints, fs =>
    match conv with
    | none =>
      -- every converter (and the final converter) failed: break (line 638)
      { earlyReturn := false, bRAWCreated := false, intermediates := ints
        globals := globals, files := fs }
    | some (meta, del) =>
      -- ConvertToRAW wrote the intermediate; it is recorded (line 642)
      -- before the compatibility check (lines 652-662) runs
      let fs' := fs ++ [TempFile.interm i]
      let ints' := ints ++ [(i, del)]
      match globals with
      | none => mergeLoop (i + 1) rest (some meta) true ints' fs'
      | some gm =>
        if meta ≠ gm then
          { earlyReturn := false, bRAWCreated := false, intermediates := ints'
            globals := some gm, files := fs' }
        else mergeLoop (i + 1) rest (some gm) true ints' fs'

/-- The cleanup loops at lines 672-675 and 755-758: every recorded
intermediate whose delete flag is set is removed (removing an absent file
is a no-op). -/
def deleteFlagged (ints : List (Nat × Bool)) (fs : List TempFile) : List TempFile :=
  fs.filter fun f => !(ints.any fun p => p.2 && f = TempFile.interm p.1)

/-- The outcome of a `MergeDatasets` call: its return value, the temp
files still existing, and whether the target was written. -/
structure MergeResult where
  ret : Bool
  files : List TempFile
  targetCreated : Bool
deriving DecidableEq

/-- `IOManager::MergeDatasets` (lines 502-800).  `mergerOk` stands for the
external `DataMerger`'s success on well-typed inputs, `targetOk` for the
final RAW-to-target conversion's success; per the spec the merger removes
`merged.raw` itself when it fails part-way. -/
def MergeDatasets (inputs : List MergeSource) (mergerOk targetOk : Bool) : MergeResult :=
  let r := mergeLoop 0 inputs none false [] []
  if r.earlyReturn then
    -- line 541
    { ret := false, files := r.files, targetCreated := false }
  else if r.bRAWCreated = false then
    -- lines 670-678: delete flagged temps and bail
    { ret := false, files := deleteFlagged r.intermediates r.files
      targetCreated := false }
  else
    match r.globals with
    | none =>
      -- unreachable with bRAWCreated set; kept for totality
      { ret := false, files := deleteFlagged r.intermediates r.files
        targetCreated := false }
    | some g =>
      if g.signed = false ∧ g.isFloat = true then
        -- line 727: "unsigned float" returns before the cleanup loop
        { ret := false, files := r.files, targetCreated := false }
      else
        let widthOk : Bool :=
          if g.isFloat then decide (g.bitWidth = 32 ∨ g.bitWidth = 64)
          else decide (g.bitWidth = 8 ∨ g.bitWidth = 16 ∨ g.bitWidth = 32 ∨
                       g.bitWidth = 64)
        let bIsMerged := widthOk && mergerOk
        let fs1 := if bIsMerged then r.files ++ [TempFile.merged] else r.files
        -- lines 755-758: remove the flagged intermediates
        let fs2 := deleteFlagged r.intermediates fs1
        if bIsMerged = false then
          -- lines 759-762
          { ret := false, files := fs2, targetCreated := false }
        else
          -- lines 764-799: convert merged.raw to the target, then remove it
          { ret := targetOk
            files := fs2.filter fun f => f ≠ TempFile.merged
            targetCreated := targetOk }

/-! ## Concrete inputs used by the failure theorems -/

/-- An unsigned 8-bit scalar volume of domain `4×4×4`, native endianness. -/
def metaU8 : VolMeta := ⟨8, 1, false, false, false, 4, 4, 4⟩

/-- Like `metaU8` but 16 bits wide — incompatible with it. -/
def metaU16 : VolMeta := ⟨16, 1, false, false, false, 4, 4, 4⟩

/-! ## Helper lemmas -/

theorem bool_max_eq_or (a b : Bool) : max a b = (a || b) := by
  cases a <;> cases b <;> rfl

theorem expandRGBA_flatTriples (l : List (Nat × Nat × Nat)) :
    expandRGBA (flatTriples l) = paddedQuads l := by
  induction l with
  | nil => rfl
  | cons t rest ih =>
    obtain ⟨r, g, b⟩ := t
    simp [flatTriples, expandRGBA, paddedQuads, ih]

theorem flatTriples_length (l : List (Nat × Nat × Nat)) :
    (flatTriples l).length = 3 * l.length := by
  induction l with
  | nil => rfl
  | cons t rest ih => obtain ⟨r, g, b⟩ := t; simp [flatTriples, ih]; ring

theorem paddedQuads_length (l : List (Nat × Nat × Nat)) :
    (paddedQuads l).length = 4 * l.length := by
  induction l with
  | nil => rfl
  | cons t rest ih => obtain ⟨r, g, b⟩ := t; simp [paddedQuads, ih]; ring

theorem IdentifyType_foldl_char (l : List UVFTypeInfo) :
    ∀ acc : Nat × Bool × Bool,
      l.foldl (fun acc v =>
          (max acc.1 v.bitWidth, max acc.2.1 v.isFloat, max acc.2.2 v.isSigned)) acc =
        (max acc.1 ((l.map fun v => v.bitWidth).foldr max 0),
         acc.2.1 || (l.any fun v => v.isFloat),
         acc.2.2 || (l.any fun v => v.isSigned)) := by
  induction l with
  | nil => intro acc; simp
  | cons v rest ih =>
    intro acc
    simp only [List.foldl_cons, List.map_cons, List.foldr_cons, List.any_cons]
    rw [ih]
    refine Prod.ext ?_ (Prod.ext ?_ ?_) <;>
      simp [bool_max_eq_or, max_assoc, Bool.or_assoc]

/-! ## The claims -/

/-- C1: the spec asserts `mn = min(voxels)`, `mx = max(voxels)` for every
emitted per-brick pair.  The fold's initial "running maximum" is
`-numeric_limits<T>::max()`, which for an unsigned `T` wraps to `1`, so a
u8 brick whose voxels are all `0` (true maximum `0`) is emitted with
`mx = 1`: the code contradicts the documented min/max computation. -/
theorem brick_minmax_sentinel_bug :
    get_brick_minmax VoxelType.u8 [0, 0] = (0, 1, -DBL_MAX, DBL_MAX) ∧
    (∀ v ∈ [(0 : ℚ), 0], v ≤ 0) ∧ (0 : ℚ) ∈ [(0 : ℚ), 0] ∧ (1 : ℚ) ≠ 0 := by
  refine ⟨?_, ?_, ?_, ?_⟩
  · norm_num [get_brick_minmax, minmax_input, minmaxInit, uwrap, DBL_MAX]
  · intro v hv; simp only [List.mem_cons, List.not_mem_nil, or_false] at hv
    rcases hv with h | h <;> simp [h]
  · simp
  · norm_num

/-- C2: the running "global maximum" is initialised at `DBL_MAX`, so the
fold is constant: a block whose only brick has maximum `3` hands
`DBL_MAX` — not `3`, the maximum over the per-brick maxima — to the 2D
histogram. -/
theorem hist2d_receives_dblmax_bug :
    hist2dMaxArg [(0, 3)] = DBL_MAX ∧
    globalMaxOfMaxima (0, 3) [] = 3 ∧ DBL_MAX ≠ 3 := by
  refine ⟨?_, rfl, ?_⟩
  · norm_num [hist2dMaxArg, DBL_MAX]
  · norm_num [DBL_MAX]

/-- C3: a failed UVF export `break`s the conversion loop without
resetting `bRAWCreated`, so with sources (u8 UVF that exports, u8 UVF
whose export fails, u16 UVF), the third — incompatible — source is never
examined and the call returns `true` and writes the target, although the
inputs do not all share the checked type attributes. -/
theorem merge_incompatible_accepted_bug :
    MergeDatasets
        [MergeSource.uvfSrc true metaU8 true,
         MergeSource.uvfSrc true metaU8 false,
         MergeSource.uvfSrc true metaU16 true] true true =
      { ret := true, files := [], targetCreated := true } ∧
    metaU8 ≠ metaU16 := by
  exact ⟨by decide, by decide⟩

/-- C4: when a later `.uvf` source fails to open, `MergeDatasets` returns
at once (line 541) without the cleanup loop, so the raw intermediate
already converted for the first source — created with its delete flag
set — is left on disk on that failure path. -/
theorem merge_temp_file_left_bug :
    (MergeDatasets [MergeSource.rawSrc (some (metaU8, true)),
        MergeSource.uvfSrc false metaU8 true] true true).ret = false ∧
    TempFile.interm 0 ∈
      (MergeDatasets [MergeSource.rawSrc (some (metaU8, true)),
        MergeSource.uvfSrc false metaU8 true] true true).files := by
  exact ⟨by decide, by decide⟩

/-- C5: whatever the inputs, the raster block `EvaluateExpression` writes
is typed 16-bit unsigned non-float, while `IdentifyType` computes the
widest input type: the maximum of the bit widths, the disjunction of the
float flags and the disjunction of the signed flags. -/
theorem eval_output_type_hardcoded (uvf : List UVFTypeInfo) :
    evalOutputRasterType uvf = (16, false, false) ∧
    (IdentifyType uvf).1 = (uvf.map fun v => v.bitWidth).foldr max 0 ∧
    ((IdentifyType uvf).2.1 = uvf.any fun v => v.isFloat) ∧
    ((IdentifyType uvf).2.2 = uvf.any fun v => v.isSigned) := by
  refine ⟨rfl, ?_, ?_, ?_⟩ <;>
    · unfold IdentifyType
      rw [IdentifyType_foldl_char]
      simp

/-- C7: the 3-to-4 component rewrite maps every input `(r,g,b)` triple to
the group `(r,g,b,255)`, the output length is `4/3` of the input length,
and the 4×4×1 stack of constant `(1,2,3)` voxels yields exactly 64
bytes. -/
theorem rgb_to_rgba_padding (l : List (Nat × Nat × Nat)) :
    expandRGBA (flatTriples l) = paddedQuads l ∧
    (expandRGBA (flatTriples l)).length = 4 * ((flatTriples l).length / 3) ∧
    (expandRGBA (flatTriples (List.replicate 16 (1, 2, 3)))).length = 64 ∧
    expandRGBA (flatTriples (List.replicate 16 (1, 2, 3))) =
      paddedQuads (List.replicate 16 (1, 2, 3)) := by
  refine ⟨expandRGBA_flatTriples l, ?_, by decide, by decide⟩
  rw [expandRGBA_flatTriples, paddedQuads_length, flatTriples_length]
  omega

/-- C9: from any state satisfying the size invariant, `SetMaxBrickSize n`
succeeds exactly when `n` exceeds the current overlap, `SetBrickOverlap n`
exactly when the current maximum brick size exceeds `n`; a failing call
leaves both settings unchanged, and either way the invariant
`overlap < max brick size` still holds afterwards. -/
theorem brick_settings_setters (s : IOMSettings) (n : Nat)
    (h : brickSettingsInv s) :
    ((SetMaxBrickSize s n).1 = decide (s.brickOverlap < n)) ∧
    ((SetMaxBrickSize s n).1 = true →
      (SetMaxBrickSize s n).2 = { s with maxBrickSize := n }) ∧
    ((SetMaxBrickSize s n).1 = false → (SetMaxBrickSize s n).2 = s) ∧
    brickSettingsInv (SetMaxBrickSize s n).2 ∧
    ((SetBrickOverlap s n).1 = decide (n < s.maxBrickSize)) ∧
    ((SetBrickOverlap s n).1 = true →
      (SetBrickOverlap s n).2 = { s with brickOverlap := n }) ∧
    ((SetBrickOverlap s n).1 = false → (SetBrickOverlap s n).2 = s) ∧
    brickSettingsInv (SetBrickOverlap s n).2 := by
  unfold SetMaxBrickSize SetBrickOverlap brickSettingsInv at *
  by_cases h1 : s.brickOverlap < n <;> by_cases h2 : n < s.maxBrickSize <;>
    simp [h1, h2] <;> omega

/-- C9 witness: the setters applied at the state `(256, 4)` with
argument `128`. -/
theorem brick_settings_setters_witness :
    brickSettingsInv (SetMaxBrickSize ⟨256, 4⟩ 128).2 ∧
    brickSettingsInv (SetBrickOverlap ⟨256, 4⟩ 128).2 ∧
    (SetMaxBrickSize ⟨256, 4⟩ 128).1 = decide ((4 : Nat) < 128) :=
  ⟨(brick_settings_setters ⟨256, 4⟩ 128 (by decide)).2.2.2.1,
   (brick_settings_setters ⟨256, 4⟩ 128 (by decide)).2.2.2.2.2.2.2,
   (brick_settings_setters ⟨256, 4⟩ 128 (by decide)).1⟩

/-- C10: the signedness flag the image branch passes to the RAW-to-UVF
builder is exactly `m_iComponentCount >= 32`; it does not change when the
allocated bit width changes, and for the valid component counts 1, 3 and 4
it is `false`. -/
theorem image_stack_signed_from_components (host : Bool) (s : ImageStackModel)
    (a : Nat) :
    (imageStackRawArgs host s).signed = decide (32 ≤ s.componentCount) ∧
    ((imageStackRawArgs host { s with allocated := a }).signed =
      (imageStackRawArgs host s).signed) ∧
    (s.componentCount = 1 ∨ s.componentCount = 3 ∨ s.componentCount = 4 →
      (imageStackRawArgs host s).signed = false) := by
  refine ⟨rfl, rfl, ?_⟩
  rintro (h | h | h) <;> simp [imageStackRawArgs, h]

/-- C8 counterexample: the registry advertises `nrrd` and the converter
can export, yet looking the extension up in its uppercase variant finds
nothing — while the lowercase variant finds it.  The lookup lowercases
only the advertised extension, never the argument, so it is not
case-insensitive in the argument. -/
theorem converter_lookup_uppercase_fails :
    GetConverterForExt [⟨["nrrd"], true⟩] "NRRD" false = none ∧
    GetConverterForExt [⟨["nrrd"], true⟩] "nrrd" false = some ⟨["nrrd"], true⟩ ∧
    toLowerCase "NRRD" = "nrrd" := by
  exact ⟨by decide, by decide, by decide⟩

/-- C8 (amended): the lookup is case-insensitive in the *advertised*
extension only: querying the lowercased form of any extension an eligible
registered converter advertises returns a converter that advertises that
lowercased extension (and can export when export was required). -/
theorem converter_lookup_lowercase_only (reg : List ConverterInfo)
    (c : ConverterInfo) (e : String) (must : Bool)
    (hc : c ∈ reg) (he : e ∈ c.exts) (hexp : must = true → c.canExport = true) :
    ∃ c', GetConverterForExt reg (toLowerCase e) must = some c' ∧
      toLowerCase e ∈ c'.exts.map toLowerCase ∧
      (must = true → c'.canExport = true) := by
  induction reg with
  | nil => cases hc
  | cons d rest ih =>
    rw [GetConverterForExt, List.findSome?_cons]
    by_cases helig : (!must || d.canExport) = true
    · by_cases hany : (d.exts.any fun x => toLowerCase e = toLowerCase x) = true
      · refine ⟨d, ?_, ?_, ?_⟩
        · simp [helig, hany]
        · obtain ⟨x, hx, hex⟩ := List.any_eq_true.mp hany
          exact List.mem_map.mpr ⟨x, hx, (of_decide_eq_true hex).symm⟩
        · intro hm
          cases hd : d.canExport with
          | true => rfl
          | false => simp [hm, hd] at helig
      · have hcd : c ≠ d := by
          rintro rfl
          exact hany (List.any_eq_true.mpr ⟨e, he, decide_eq_true rfl⟩)
        have hcr : c ∈ rest := by
          rcases List.mem_cons.mp hc with h | h
          · exact absurd h hcd
          · exact h
        have := ih hcr
        rw [GetConverterForExt] at this
        simpa [helig, hany] using this
    · have hcd : c ≠ d := by
        rintro rfl
        cases hm : must with
        | false => simp [hm] at helig
        | true => simp [hm, hexp hm] at helig
      have hcr : c ∈ rest := by
        rcases List.mem_cons.mp hc with h | h
        · exact absurd h hcd
        · exact h
      have := ih hcr
      rw [GetConverterForExt] at this
      simpa [helig] using this

/-- C8 witness: looking up the lowercased form of the advertised
uppercase extension `NHDR` with export required. -/
theorem converter_lookup_lowercase_only_witness :
    ∃ c', GetConverterForExt [⟨["NHDR", "nrrd"], true⟩] (toLowerCase "NHDR") true =
        some c' ∧
      toLowerCase "NHDR" ∈ c'.exts.map toLowerCase ∧
      (true = true → c'.canExport = true) :=
  converter_lookup_lowercase_only [⟨["NHDR", "nrrd"], true⟩] ⟨["NHDR", "nrrd"], true⟩
    "NHDR" true (by decide) (by decide) (fun _ => rfl)

/-! ## C6: what the mergeability gate actually compares -/

/-- Agreement on everything `MergeableDatasets` compares: component
count, brick overlap, timestep count, LOD count, and — at every in-range
`(ts, level)` pair — the domain size at the default query point and the
brick count at `(level, ts)`. -/
def sameListed (a b : DSMeta) : Prop :=
  a.componentCount = b.componentCount ∧ a.brickOverlap = b.brickOverlap ∧
  a.timesteps = b.timesteps ∧ a.lods = b.lods ∧
  ∀ ts < a.timesteps, ∀ level < a.lods,
    a.domainSize defaultDomainQuery.1 defaultDomainQuery.2 =
      b.domainSize defaultDomainQuery.1 defaultDomainQuery.2 ∧
    a.brickCount level ts = b.brickCount level ts

/-- A difference in one of the attributes the check reads: component
count, brick overlap, timestep count, LOD count, the default-point domain
size (observable only when both counts are nonzero), or some in-range
brick count. -/
def listedDiff (a b : DSMeta) : Prop :=
  a.componentCount ≠ b.componentCount ∨ a.brickOverlap ≠ b.brickOverlap ∨
  a.timesteps ≠ b.timesteps ∨ a.lods ≠ b.lods ∨
  (0 < a.timesteps ∧ 0 < a.lods ∧
    a.domainSize defaultDomainQuery.1 defaultDomainQuery.2 ≠
      b.domainSize defaultDomainQuery.1 defaultDomainQuery.2) ∨
  (∃ ts < a.timesteps, ∃ level < a.lods,
    a.brickCount level ts ≠ b.brickCount level ts)

theorem mergeableDatasets_eq_true_iff (a b : DSMeta) :
    mergeableDatasets a b = true ↔ sameListed a b := by
  unfold mergeableDatasets sameListed
  split_ifs with h1 h2 h3
  · simp only [Bool.false_eq_true, false_iff]
    rintro ⟨e1, e2, -⟩
    rcases h1 with h | h
    · exact h e1
    · exact h e2
  · simp only [Bool.false_eq_true, false_iff]
    rintro ⟨-, -, e3, -⟩
    exact h2 e3
  · simp only [Bool.false_eq_true, false_iff]
    rintro ⟨-, -, -, e4, -⟩
    exact h3 e4
  · push_neg at h1
    simp only [List.all_eq_true, List.mem_range]
    constructor
    · intro h
      refine ⟨h1.1, h1.2, not_not.mp h2, not_not.mp h3, fun ts hts level hl => ?_⟩
      have := h ts hts level hl
      by_cases hc : a.domainSize defaultDomainQuery.1 defaultDomainQuery.2 ≠
            b.domainSize defaultDomainQuery.1 defaultDomainQuery.2 ∨
          a.brickCount level ts ≠ b.brickCount level ts
      · simp [hc] at this
      · push_neg at hc
        exact hc
    · rintro ⟨-, -, -, -, h5⟩ ts hts level hl
      have := h5 ts hts level hl
      rw [if_neg]
      push_neg
      exact this

theorem not_sameListed_iff (a b : DSMeta) : ¬sameListed a b ↔ listedDiff a b := by
  unfold sameListed listedDiff
  constructor
  · intro h
    by_cases e1 : a.componentCount = b.componentCount
    case neg => exact Or.inl e1
    by_cases e2 : a.brickOverlap = b.brickOverlap
    case neg => exact Or.inr (Or.inl e2)
    by_cases e3 : a.timesteps = b.timesteps
    case neg => exact Or.inr (Or.inr (Or.inl e3))
    by_cases e4 : a.lods = b.lods
    case neg => exact Or.inr (Or.inr (Or.inr (Or.inl e4)))
    have h5 : ¬∀ ts < a.timesteps, ∀ level < a.lods,
        a.domainSize defaultDomainQuery.1 defaultDomainQuery.2 =
          b.domainSize defaultDomainQuery.1 defaultDomainQuery.2 ∧
        a.brickCount level ts = b.brickCount level ts :=
      fun hh => h ⟨e1, e2, e3, e4, hh⟩
    push_neg at h5
    obtain ⟨ts, hts, level, hl, h6⟩ := h5
    by_cases hd : a.domainSize defaultDomainQuery.1 defaultDomainQuery.2 =
        b.domainSize defaultDomainQuery.1 defaultDomainQuery.2
    · exact Or.inr (Or.inr (Or.inr (Or.inr (Or.inr
        ⟨ts, hts, level, hl, h6 hd⟩))))
    · exact Or.inr (Or.inr (Or.inr (Or.inr (Or.inl
        ⟨Nat.pos_of_ne_zero (by omega), Nat.pos_of_ne_zero (by omega), hd⟩))))
  · rintro (h | h | h | h | ⟨hT, hL, h⟩ | ⟨ts, hts, level, hl, h⟩)
      ⟨e1, e2, e3, e4, h5⟩
    · exact h e1
    · exact h e2
    · exact h e3
    · exact h e4
    · exact h (h5 0 hT 0 hL).1
    · exact h (h5 ts hts level hl).2

theorem sameListed_trans_of_common (a x y : DSMeta)
    (hax : sameListed a x) (hay : sameListed a y) : sameListed x y := by
  obtain ⟨e1, e2, e3, e4, h5⟩ := hax
  obtain ⟨f1, f2, f3, f4, g5⟩ := hay
  refine ⟨e1 ▸ f1, e2 ▸ f2, e3 ▸ f3, e4 ▸ f4, fun ts hts level hl => ?_⟩
  have hts' : ts < a.timesteps := by omega
  have hl' : level < a.lods := by omega
  obtain ⟨d1, b1⟩ := h5 ts hts' level hl'
  obtain ⟨d2, b2⟩ := g5 ts hts' level hl'
  exact ⟨d1 ▸ d2, b1 ▸ b2⟩

/-- C6 (amended): the unmergeable error fires exactly when some pair of
inputs differs in one of the attributes the check reads — component
count, brick overlap, LOD count, timestep count, the *default-point*
domain size, or an in-range brick count. -/
theorem eval_unmergeable_iff_listed (a : DSMeta) (rest : List DSMeta) :
    evalExprUnmergeable a rest = true ↔
      ∃ x ∈ a :: rest, ∃ y ∈ a :: rest, listedDiff x y := by
  unfold evalExprUnmergeable
  rw [List.any_eq_true]
  constructor
  · rintro ⟨u, hu, hmu⟩
    rw [Bool.not_eq_eq_eq_not, Bool.not_true] at hmu
    have : ¬sameListed a u := fun hs =>
      by simp [(mergeableDatasets_eq_true_iff a u).mpr hs] at hmu
    exact ⟨a, List.mem_cons_self a rest, u, hu, (not_sameListed_iff a u).mp this⟩
  · rintro ⟨x, hx, y, hy, hxy⟩
    by_contra hno
    push_neg at hno
    have hall : ∀ u ∈ a :: rest, sameListed a u := by
      intro u hu
      have := hno u hu
      simp only [ne_eq, Bool.not_eq_true', Bool.not_eq_false] at this
      exact (mergeableDatasets_eq_true_iff a u).mp this
    exact (not_sameListed_iff x y).mpr hxy
      (sameListed_trans_of_common a x y (hall x hx) (hall y hy))

/-- C6 counterexample: two datasets equal in component count, overlap,
timestep count, LOD count, every brick count and the finest-LOD domain
size, but with different domain sizes at the (valid) coarser LOD 1 — a
per-(LOD, timestep) domain-size difference.  The gate raises no error:
the loop compares `GetDomainSize()` at its default arguments only. -/
theorem eval_unmergeable_misses_coarse_lod :
    evalExprUnmergeable
        ⟨1, (2, 2, 2), 1, 2, fun l _ => if l = 0 then (8, 8, 8) else (4, 4, 4),
          fun _ _ => (1, 1, 1)⟩
        [⟨1, (2, 2, 2), 1, 2, fun l _ => if l = 0 then (8, 8, 8) else (5, 5, 5),
          fun _ _ => (1, 1, 1)⟩] = false ∧
    (DSMeta.domainSize
        ⟨1, (2, 2, 2), 1, 2, fun l _ => if l = 0 then (8, 8, 8) else (4, 4, 4),
          fun _ _ => (1, 1, 1)⟩ 1 0 ≠
      DSMeta.domainSize
        ⟨1, (2, 2, 2), 1, 2, fun l _ => if l = 0 then (8, 8, 8) else (5, 5, 5),
          fun _ _ => (1, 1, 1)⟩ 1 0) ∧
    (1 : Nat) < 2 ∧ (0 : Nat) < 1 := by
  exact ⟨by decide, by decide, by decide, by decide⟩

end Tuvok
